import Mathlib

/-!
# Verification of the GNOME Keysign key-retrieval and signing core

Shallow embedding of `src/keysign/GetKeySection.py`.  The GnuPG backend
(monkeysign `Keyring`), the MAC checker (`util.mac_verify`) and the HTTP
transport (`requests`) are external collaborators: their behaviour is
abstracted as explicit function parameters (`GpgBackend`, `Keyring`,
`SignSandbox`, network functions), while every piece of control flow and
data flow of the repository's own code is translated faithfully,
including raised-and-caught exceptions (modelled with `Except PyError`).
-/

namespace Keysign

/-- Python exception classes that the embedded code can raise. -/
inductive PyError where
  | valueError
  | indexError
  | assertionError
  | keyError
deriving DecidableEq, Repr

/-- The view of a monkeysign OpenPGP key object used by
`GetKeySection.py`: fingerprint, the four usability flags, the list of
user-id strings (`uidslist`, each element's `.uid`) and `keyid()`. -/
structure OpenPGPKey where
  fpr : String
  invalid : Bool
  disabled : Bool
  expired : Bool
  revoked : Bool
  uidslist : List String
  keyid : String
deriving DecidableEq, Repr

/-- Result of importing some key bytes into a fresh temporary keyring:
the boolean returned by `import_data`, the association list returned by
`get_keys()` afterwards, and the behaviour of `export_data` (with
`export-options export-minimal` set, as every call site sets it). -/
structure ImportResult where
  ok : Bool
  keys : List (String × OpenPGPKey)
  exportData : String → String

/-- The external GnuPG/MAC collaborators: what a throwaway keyring does
with given key bytes, and `util.mac_verify fingerprint data mac`. -/
structure GpgBackend where
  importResult : String → ImportResult
  macVerify : String → String → String → Bool

/-- First-match association-list lookup, modelling Python dict
indexing `d[k]` (keys are unique in a dict, so first match suffices). -/
def lookupAssoc {α : Type} (l : List (String × α)) (k : String) : Option α :=
  match l.find? (fun p => p.1 == k) with
  | some p => some p.2
  | none => none

/-- A monkeysign `Keyring` as seen by the usability filters:
`get_keys pattern public secret` (defaults in monkeysign are
`pattern=None, secret=False, public=True`) and `export_data`. -/
structure Keyring where
  get_keys : Option String → Bool → Bool → List (String × OpenPGPKey)
  export_data : String → String

/-- The `is_usable` predicate defined inside `get_usable_keys`
(lines 219-224): a key is unusable iff it is invalid, disabled,
expired or revoked. -/
def is_usable (key : OpenPGPKey) : Bool :=
  !(key.invalid || key.disabled || key.expired || key.revoked)

/-- `get_usable_keys` (lines 213-230): fetch keys matching the given
arguments and keep the usable ones.  The `*args/**kwargs` pass-through
is modelled by the explicit `(pattern, public, secret)` triple handed
to `Keyring.get_keys`. -/
def get_usable_keys (keyring : Keyring) (pattern : Option String)
    (pub sec : Bool) : List OpenPGPKey :=
  let keys_dict := keyring.get_keys pattern pub sec
  let keys := keys_dict.map Prod.snd
  keys.filter is_usable

/-- `get_usable_secret_keys` (lines 233-247): fetch the secret keys,
keep the fingerprints for which `get_usable_keys(keyring, pattern=fpr,
public=True)` is non-empty (Python truthiness of the returned list),
and return the corresponding secret-key objects (`secret_keys_dict[fpr]`,
modelled by `lookupAssoc`). -/
def get_usable_secret_keys (keyring : Keyring) (pattern : Option String) :
    List OpenPGPKey :=
  let secret_keys_dict := keyring.get_keys pattern false true
  let secret_key_fprs := secret_keys_dict.map Prod.fst
  let usable_keys_fprs := secret_key_fprs.filter
    (fun fpr => !(get_usable_keys keyring (some fpr) true false).isEmpty)
  usable_keys_fprs.filterMap (fun fpr => lookupAssoc secret_keys_dict fpr)

/-- `openpgpkey_from_data` (lines 178-201): import into a throwaway
keyring (`raise ValueError` when `import_data` returns false), then
require at most one key in `get_keys()` (`raise ValueError` when more
than one); `list(keys.items())[0]` on an empty dict would raise
`IndexError`. -/
def openpgpkey_from_data (B : GpgBackend) (keydata : String) :
    Except PyError OpenPGPKey :=
  let r := B.importResult keydata
  if !r.ok then Except.error PyError.valueError
  else if r.keys.length > 1 then Except.error PyError.valueError
  else
    match r.keys with
    | [] => Except.error PyError.indexError
    | kv :: _ => Except.ok kv.2

/-- `fingerprint_for_key` (lines 207-210): the fingerprint of the single
key contained in the data. -/
def fingerprint_for_key (B : GpgBackend) (keydata : String) :
    Except PyError String :=
  match openpgpkey_from_data B keydata with
  | Except.error e => Except.error e
  | Except.ok openpgpkey => Except.ok openpgpkey.fpr

/-- `MinimalExport` (lines 103-118): import into a throwaway keyring,
`assert ret` (an `AssertionError` when the import failed), then
`fingerprint, key = keys[0]` (an `IndexError` on an empty key list) and
export that first key with `export-minimal` set.  Note the code never
checks that at most one key was imported: with several keys it simply
exports the first one of the sandbox listing. -/
def MinimalExport (B : GpgBackend) (keydata : String) :
    Except PyError String :=
  let r := B.importResult keydata
  if !r.ok then Except.error PyError.assertionError
  else
    match r.keys with
    | [] => Except.error PyError.indexError
    | (fingerprint, _) :: _ => Except.ok (r.exportData fingerprint)

/-- Python truthiness of the optional `mac` argument: `if mac:` is
false for `None` and for the empty string. -/
def pyTruthy (mac : Option String) : Bool :=
  match mac with
  | none => false
  | some s => s != ""

/-- `GetKeySection.verify_downloaded_key` (lines 407-425): if `mac` is
truthy, the result is `mac_verify(fingerprint, downloaded_data, mac)`;
otherwise recompute the fingerprint (`try: ... except ValueError:`
turns a `ValueError` into the result `False`; any other exception
propagates) and accept iff it equals `fingerprint`. -/
def verify_downloaded_key (B : GpgBackend)
    (downloaded_data fingerprint : String) (mac : Option String) :
    Except PyError Bool :=
  if pyTruthy mac then
    Except.ok (B.macVerify fingerprint downloaded_data (mac.getD ""))
  else
    match fingerprint_for_key B downloaded_data with
    | Except.error PyError.valueError => Except.ok false
    | Except.error e => Except.error e
    | Except.ok imported_key_fpr =>
        Except.ok (imported_key_fpr == fingerprint)

/-- A discovered peer, the tuple `name, address, port, fpr` unpacked in
`try_download_keys` (line 398). -/
structure Client where
  name : String
  address : String
  port : Nat
  fpr : String
deriving DecidableEq, Repr

/-- Python `sorted(l, key=key, reverse=True)` for a boolean key: the
sort is stable and `True > False`, so the elements whose key is true
come first, each block keeping its original order. -/
def pySortedBoolRev (l : List Client) (key : Client → Bool) : List Client :=
  l.filter key ++ l.filter (fun c => !(key c))

/-- `GetKeySection.sort_clients` (lines 427-431), verbatim: the sorted
list is bound to the local variable `client` and then discarded — the
function returns the original `clients` list unchanged. -/
def sort_clients (clients : List Client) (selected_client_fpr : String) :
    List Client :=
  let key := fun client => client.fpr == selected_client_fpr
  let client := pySortedBoolRev clients key
  let _ := client
  clients

/-- A transport-level failure of `requests.get`
(`requests.exceptions.ConnectionError`, the peer being unreachable). -/
structure ConnectionFailure where
  msg : String
deriving DecidableEq, Repr

/-- The URL built by `download_key_http` (lines 384-393):
`ParseResult('http', "[[address]]:port", '/', ...).geturl()`. -/
def download_url (address : String) (port : Nat) : String :=
  "http://[[" ++ address ++ "]]:" ++ toString port ++ "/"

/-- `GetKeySection.download_key_http` (lines 384-393): one GET request
to the peer's address and port; the network is abstracted as a function
from the URL to either the body text or a transport failure. -/
def download_key_http (net : String → Except ConnectionFailure String)
    (address : String) (port : Nat) : Except ConnectionFailure String :=
  net (download_url address port)

/-- `GetKeySection.try_download_keys` (lines 395-405): a generator over
the clients that yields each successfully downloaded key and, on a
`ConnectionError`, logs and moves on to the next client.  The list of
yielded values models the generator; the total return type shows that
no transport failure escapes to the caller. -/
def try_download_keys (net : String → Except ConnectionFailure String)
    (clients : List Client) : List String :=
  clients.filterMap (fun client =>
    match download_key_http net client.address client.port with
    | Except.ok keydata => some keydata
    | Except.error _ => none)

/-! ## Barcode parsing

`parse_barcode` (lines 343-361) delegates to the Python 2.7 standard
library (`urlparse.urlparse` and `urlparse.parse_qs`).  The following
definitions model that library behaviour for the inputs at hand
(`urlparse` equals `urlsplit` here because the scheme is not in
`uses_params`; percent-escape decoding of `urllib.unquote` is not
modelled — the inputs considered contain no `%` escapes). -/

/-- The characters allowed in a URL scheme by `urlparse.scheme_chars`. -/
def scheme_chars : List Char :=
  "abcdefghijklmnopqrstuvwxyzABCDEFGHIJKLMNOPQRSTUVWXYZ0123456789+-.".toList

/-- Split a character list at the first occurrence of `c`, the
separator removed — Python `s.split(c, 1)` when it returns two parts. -/
def splitOnce (l : List Char) (c : Char) : Option (List Char × List Char) :=
  match l.findIdx? (· = c) with
  | some i => some (l.take i, l.drop (i + 1))
  | none => none

/-- `urlparse._splitnetloc`: the netloc runs up to the first of
`/`, `?` or `#`. -/
def splitnetloc (l : List Char) : List Char × List Char :=
  let i := l.findIdx (fun c => c = '/' || c = '?' || c = '#')
  (l.take i, l.drop i)

/-- The five components produced by `urlparse.urlsplit`. -/
structure UrlSplitResult where
  scheme : String
  netloc : String
  path : String
  query : String
  fragment : String
deriving DecidableEq, Repr

/-- Python 2.7 `urlparse.urlsplit(url)` (default arguments): recognise
`scheme:` when the text before the first colon is made of scheme
characters and the remainder is not a pure digit string (the
port-number guard), lowercase the scheme, then split off `//netloc`,
`#fragment` and `?query` in that order. -/
def urlsplit (url : String) : UrlSplitResult :=
  let u0 := url.toList
  let schemeUrl :=
    match u0.findIdx? (· = ':') with
    | some i =>
      if 0 < i then
        let sch := u0.take i
        let rest := u0.drop (i + 1)
        if sch.all (fun c => scheme_chars.contains c) &&
           (rest.isEmpty || rest.any (fun c => !c.isDigit)) then
          (sch.map Char.toLower, rest)
        else ([], u0)
      else ([], u0)
    | none => ([], u0)
  let scheme := schemeUrl.1
  let u1 := schemeUrl.2
  let netlocUrl :=
    if u1.take 2 = ['/', '/'] then splitnetloc (u1.drop 2) else ([], u1)
  let netloc := netlocUrl.1
  let u2 := netlocUrl.2
  let urlFragment :=
    match splitOnce u2 '#' with
    | some pr => pr
    | none => (u2, [])
  let u3 := urlFragment.1
  let fragment := urlFragment.2
  let pathQuery :=
    match splitOnce u3 '?' with
    | some pr => pr
    | none => (u3, [])
  ⟨String.mk scheme, String.mk netloc, String.mk pathQuery.1,
   String.mk pathQuery.2, String.mk fragment⟩

/-- `urllib.unquote` applied after `.replace('+', ' ')`, as
`parse_qsl` does (percent escapes not modelled, see above). -/
def unquotePlus (s : String) : String :=
  String.mk (s.toList.map (fun c => if c = '+' then ' ' else c))

/-- Python `s.split(c)` on a character list: split at every occurrence
of `c`, keeping empty chunks (so `"a&&b"` gives three chunks and the
empty string gives one empty chunk). -/
def splitOnChar : List Char → Char → List (List Char)
  | [], _ => [[]]
  | x :: xs, c =>
    match splitOnChar xs c with
    | [] => if x = c then [[], []] else [[x]]
    | y :: ys => if x = c then [] :: y :: ys else (x :: y) :: ys

/-- Python 2.7 `urlparse.parse_qsl(qs)` with default arguments: split
on `&` and `;`, skip empty chunks, skip chunks without `=`, skip pairs
whose value is empty (`keep_blank_values=False`). -/
def parse_qsl (qs : String) : List (String × String) :=
  let pairs := (splitOnChar qs.toList '&').flatMap
    (fun s1 => splitOnChar s1 ';')
  pairs.foldl (fun r name_value =>
    if name_value.isEmpty then r
    else
      match splitOnce name_value '=' with
      | none => r
      | some nv =>
        if nv.2.isEmpty then r
        else r ++ [(unquotePlus (String.mk nv.1), unquotePlus (String.mk nv.2))])
    []

/-- Append a parsed value to the dict entry for `name`, creating the
entry when absent (`parse_qs`'s dict-building loop). -/
def qsAppend (d : List (String × List String)) (n v : String) :
    List (String × List String) :=
  if d.any (fun p => p.1 == n) then
    d.map (fun p => if p.1 == n then (p.1, p.2 ++ [v]) else p)
  else d ++ [(n, [v])]

/-- Python 2.7 `urlparse.parse_qs(qs)`: group the `parse_qsl` pairs
into a dict from name to the list of values. -/
def parse_qs (qs : String) : List (String × List String) :=
  (parse_qsl qs).foldl (fun d pr => qsAppend d pr.1 pr.2) []

/-- A value of the dict returned by `parse_barcode`: the query
parameters map to lists of strings, the added `'fingerprint'` entry to
a plain string. -/
inductive BarcodeVal where
  | str (s : String)
  | list (l : List String)
deriving DecidableEq, Repr

/-- Python dict assignment `d[k] = v`: replace the value when the key
exists, otherwise add the binding. -/
def dictSet (d : List (String × BarcodeVal)) (k : String) (v : BarcodeVal) :
    List (String × BarcodeVal) :=
  if d.any (fun p => p.1 == k) then
    d.map (fun p => if p.1 == k then (p.1, v) else p)
  else d ++ [(k, v)]

/-- `GetKeySection.parse_barcode` (lines 343-361): urlparse the string,
take the path as the fingerprint and `parse_qs` of the query as the
remaining attributes, then store the fingerprint under
`'fingerprint'`. -/
def parse_barcode (barcode_string : String) : List (String × BarcodeVal) :=
  let p := urlsplit barcode_string
  let fpr := p.path
  let q := p.query
  let rest := (parse_qs q).map (fun pr => (pr.1, BarcodeVal.list pr.2))
  dictSet rest "fingerprint" (BarcodeVal.str fpr)

/-- The MAC extraction of `on_button_clicked` (lines 650-652):
`barcode_information.get('mac', [None])[0]`.  When `'mac'` is present
its value is a non-empty list built by `parse_qs`, so `[0]` is its
head; when absent the default `[None][0]` is `None`. -/
def barcode_mac (parsed : List (String × BarcodeVal)) : Option String :=
  match lookupAssoc parsed "mac" with
  | some (BarcodeVal.list l) => l.head?
  | _ => none

/-! ## Signing pipeline (`sign_key_async`, lines 471-582) -/

/-- The `TempSigningKeyring` used by one signing run, abstracted:
`preStore` is its `get_keys`/`export_data` behaviour before the target
key is imported (used by `get_usable_secret_keys`), `importOk` the
result of `import_data` on the stripped key, `postKeys imported pattern`
the `get_keys(pattern)` behaviour after the import, `exportUid` its
`export_data(uid)` after the import, and `encrypt data recipient` its
`encrypt_data`. -/
structure SignSandbox where
  preStore : Keyring
  importOk : String → Bool
  postKeys : String → String → List (String × OpenPGPKey)
  exportUid : String → String → String
  encrypt : String → String → String

/-- One pass of the per-identity loop (lines 528-566): the identity,
the `recipient` argument passed to `encrypt_data`, the encrypted
export, the `to` argument passed to `email_file` (named `toAddr` here,
`to` being a reserved word), and the
`fingerprint`/`keyid` entries of the mail-template context. -/
structure MailEvent where
  uid : String
  recipient : String
  encrypted : String
  toAddr : String
  ctx_fingerprint : String
  ctx_keyid : String
deriving DecidableEq, Repr

/-- Outcome of a signing run: an uncaught exception, the
the import-failure branch (lines 577-580, invoking the error path), or
a completed run recording the fingerprint used for the target-key
lookup and the per-identity mail events. -/
inductive SignResult where
  | error (e : PyError)
  | importFailed
  | ok (lookupFpr : String) (events : List MailEvent)
deriving DecidableEq, Repr

/-- Python `data or self.received_key_data` (line 483): string
truthiness. -/
def pyOr (data received_key_data : String) : String :=
  if data != "" then data else received_key_data

/-- Lines 505-566 of `sign_key_async`, from `import_data(stripped_key)`
on: look the target key up under `fingerprint` (`assert len(keys) == 1`
raises `AssertionError` otherwise; `keys[fingerprint]` raises
`KeyError` when the single key is filed under another fingerprint),
sign `uidlist[0].uid` once per secret key (`uidlist[0]` raises
`IndexError` on an empty uid list when at least one secret key exists),
then for every uid export (`UIDExport`, abstracted as `uidExportFn`),
encrypt to the uid as recipient and mail the uid. -/
def sign_with_target (sb : SignSandbox) (uidExportFn : String → String → String)
    (secret_keys : List OpenPGPKey) (fingerprint stripped_key : String) :
    SignResult :=
  if sb.importOk stripped_key then
    let keys := sb.postKeys stripped_key fingerprint
    if keys.length != 1 then SignResult.error PyError.assertionError
    else
      match lookupAssoc keys fingerprint with
      | none => SignResult.error PyError.keyError
      | some key =>
        let uidlist := key.uidslist
        if !secret_keys.isEmpty && uidlist.isEmpty then
          SignResult.error PyError.indexError
        else
          SignResult.ok fingerprint (uidlist.map (fun uid_str =>
            { uid := uid_str
              recipient := uid_str
              encrypted := sb.encrypt
                (uidExportFn uid_str (sb.exportUid stripped_key uid_str)) uid_str
              toAddr := uid_str
              ctx_fingerprint := fingerprint
              ctx_keyid := key.keyid }))
  else SignResult.importFailed

/-- `GetKeySection.sign_key_async` (lines 471-582).  `B` models the
throwaway keyrings of `MinimalExport`/`fingerprint_for_key`, `base` the
user's primary keyring (with `export-minimal` set), `sb` the
`TempSigningKeyring`, and `uidExportFn` the external `UIDExport`
composite.  When key data is present it is minimised and its
fingerprint recomputed; a mismatch with the requested fingerprint is
only logged (lines 491-495) — the requested fingerprint stays in the
`fingerprint` variable used downstream.  Without key data the named
fingerprint is exported from the base keyring (`ValueError` when no
fingerprint was given either). -/
def sign_key_async (B : GpgBackend) (base : Keyring) (sb : SignSandbox)
    (uidExportFn : String → String → String) (fingerprint : Option String)
    (data received_key_data : String) : SignResult :=
  let secret_keys := get_usable_secret_keys sb.preStore none
  let keydata := pyOr data received_key_data
  if keydata != "" then
    match MinimalExport B keydata with
    | Except.error e => SignResult.error e
    | Except.ok stripped_key =>
      match fingerprint_for_key B stripped_key with
      | Except.error e => SignResult.error e
      | Except.ok fpr =>
        sign_with_target sb uidExportFn secret_keys
          (fingerprint.getD fpr) stripped_key
  else
    match fingerprint with
    | none => SignResult.error PyError.valueError
    | some f =>
        sign_with_target sb uidExportFn secret_keys f (base.export_data f)

/-! ## Helper lemmas -/

/-- On an association list with pairwise-distinct keys (the dict
invariant), `lookupAssoc` finds exactly the listed pairs. -/
theorem lookupAssoc_eq_some_of_nodup {α : Type} {l : List (String × α)}
    {fpr : String} {k : α} (hnd : (l.map Prod.fst).Nodup) :
    lookupAssoc l fpr = some k ↔ (fpr, k) ∈ l := by
  induction l with
  | nil => simp [lookupAssoc]
  | cons a t ih =>
    obtain ⟨a1, a2⟩ := a
    simp only [List.map_cons, List.nodup_cons] at hnd
    obtain ⟨ha, ht⟩ := hnd
    by_cases hc : a1 = fpr
    · subst hc
      have hfind : lookupAssoc ((a1, a2) :: t) a1 = some a2 := by
        simp [lookupAssoc]
      rw [hfind, List.mem_cons]
      constructor
      · intro h
        injection h with h
        exact Or.inl (by rw [h])
      · rintro (h | h)
        · injection h with h1 h2
          rw [h2]
        · exact absurd (List.mem_map.mpr ⟨(a1, k), h, rfl⟩) ha
    · have hbeq : (a1 == fpr) = false := beq_eq_false_iff_ne.mpr hc
      have hfind : lookupAssoc ((a1, a2) :: t) fpr = lookupAssoc t fpr := by
        simp [lookupAssoc, List.find?, hbeq]
      rw [hfind, ih ht, List.mem_cons]
      constructor
      · exact fun h => Or.inr h
      · rintro (h | h)
        · injection h with h1 h2
          exact absurd h1.symm hc
        · exact h

/-- Inversion of a completed `sign_with_target` run: the recorded
lookup fingerprint is the one the run was given, the import succeeded,
and the mail events are exactly one per uid of the looked-up key. -/
theorem sign_with_target_ok_inv (sb : SignSandbox)
    (uidExportFn : String → String → String) (secret_keys : List OpenPGPKey)
    (fingerprint stripped_key l : String) (evs : List MailEvent)
    (h : sign_with_target sb uidExportFn secret_keys fingerprint stripped_key =
         SignResult.ok l evs) :
    l = fingerprint ∧ sb.importOk stripped_key = true ∧
    ∃ key, lookupAssoc (sb.postKeys stripped_key fingerprint) fingerprint
        = some key ∧
      evs = key.uidslist.map (fun uid_str =>
        { uid := uid_str
          recipient := uid_str
          encrypted := sb.encrypt
            (uidExportFn uid_str (sb.exportUid stripped_key uid_str)) uid_str
          toAddr := uid_str
          ctx_fingerprint := fingerprint
          ctx_keyid := key.keyid }) := by
  simp only [sign_with_target] at h
  split at h
  next himp =>
    split at h
    · exact SignResult.noConfusion h
    · split at h
      · exact SignResult.noConfusion h
      next key hkey =>
        split at h
        · exact SignResult.noConfusion h
        · injection h with h1 h2
          exact ⟨h1.symm, himp, key, hkey, h2.symm⟩
  next himp => exact SignResult.noConfusion h

/-- Inversion of a completed `sign_key_async` run: the run went through
`sign_with_target` on some stripped key, under the fingerprint that was
recorded in the result. -/
theorem sign_key_async_ok_inv (B : GpgBackend) (base : Keyring)
    (sb : SignSandbox) (uidExportFn : String → String → String)
    (fingerprint : Option String) (data received_key_data l : String)
    (evs : List MailEvent)
    (h : sign_key_async B base sb uidExportFn fingerprint data
          received_key_data = SignResult.ok l evs) :
    ∃ stripped_key,
      sign_with_target sb uidExportFn
        (get_usable_secret_keys sb.preStore none) l stripped_key =
      SignResult.ok l evs := by
  simp only [sign_key_async] at h
  split at h
  · split at h
    · exact SignResult.noConfusion h
    next stripped_key hmin =>
      split at h
      · exact SignResult.noConfusion h
      next fpr hfpr =>
        have hl := (sign_with_target_ok_inv _ _ _ _ _ _ _ h).1
        subst hl
        exact ⟨_, h⟩
  · split at h
    · exact SignResult.noConfusion h
    next f =>
      have hl := (sign_with_target_ok_inv _ _ _ _ _ _ _ h).1
      subst hl
      exact ⟨_, h⟩

/-! ## Concrete instances used by witnesses and counterexamples -/

/-- The first example peer of the spec's peer-ordering test. -/
def alice : Client := ⟨"alice", "10.0.0.1", 1234, "AAA"⟩

/-- The second example peer of the spec's peer-ordering test; its
advertised fingerprint matches the target `"BBB"`. -/
def bob : Client := ⟨"bob", "10.0.0.2", 1234, "BBB"⟩

/-! ## Claims -/

/-- **C1.** The claim says `sort_clients` places peers whose advertised
fingerprint equals the target first, so that for peers
`[alice ↦ "AAA", bob ↦ "BBB"]` and target `"BBB"` the peer `bob` is
attempted first.  The code computes that reordering into the local
variable `client` but returns the original `clients` list, so the first
peer attempted by `obtain_key_async` (which iterates
`try_download_keys (sort_clients clients fingerprint)` in order) is
`alice`, whose fingerprint does not match — while the discarded sorted
list indeed had `bob` first. -/
theorem sort_clients_returns_unsorted_input :
    sort_clients [alice, bob] "BBB" = [alice, bob]
    ∧ (sort_clients [alice, bob] "BBB").head? = some alice
    ∧ alice.fpr ≠ "BBB"
    ∧ pySortedBoolRev [alice, bob] (fun c => c.fpr == "BBB") = [bob, alice] := by
  exact ⟨rfl, rfl, by decide, by decide⟩

/-- **C9.** Every key returned by `get_usable_keys` has all four flags
false: in particular no revoked key ever appears in the output,
whatever its other flags. -/
theorem get_usable_keys_never_revoked (keyring : Keyring)
    (pattern : Option String) (pub sec : Bool) (k : OpenPGPKey)
    (h : k ∈ get_usable_keys keyring pattern pub sec) :
    k.invalid = false ∧ k.disabled = false ∧ k.expired = false ∧
      k.revoked = false := by
  unfold get_usable_keys at h
  have hu := (List.mem_filter.mp h).2
  simp only [is_usable, Bool.not_eq_true', Bool.or_eq_false_iff] at hu
  exact ⟨hu.1.1.1, hu.1.1.2, hu.1.2, hu.2⟩

/-- A usable key and a revoked key for the C9 witness keyring. -/
def kGood : OpenPGPKey :=
  ⟨"F1", false, false, false, false, ["good@example.org"], "KID1"⟩

/-- A key whose only defect is the revoked flag. -/
def kRevoked : OpenPGPKey :=
  ⟨"F2", false, false, false, true, ["revoked@example.org"], "KID2"⟩

/-- A concrete keyring holding one usable and one revoked key. -/
def krC9 : Keyring :=
  { get_keys := fun _ _ _ => [("F1", kGood), ("F2", kRevoked)]
    export_data := fun _ => "" }

/-- Witness for C9: the usable key is returned and the theorem yields
its flag facts (and the revoked key is indeed absent). -/
theorem get_usable_keys_never_revoked_witness :
    kGood.invalid = false ∧ kGood.disabled = false ∧
      kGood.expired = false ∧ kGood.revoked = false :=
  get_usable_keys_never_revoked krC9 none true false kGood (by decide)

/-- **C8.** (dict invariant: pairwise-distinct secret-key
fingerprints) A key is in the output of `get_usable_secret_keys`
exactly when it is one of the store's secret keys and the store holds a
usable public key for its fingerprint. -/
theorem get_usable_secret_keys_mem_iff (keyring : Keyring)
    (pattern : Option String) (k : OpenPGPKey)
    (hnd : ((keyring.get_keys pattern false true).map Prod.fst).Nodup) :
    k ∈ get_usable_secret_keys keyring pattern ↔
      ∃ fpr, (fpr, k) ∈ keyring.get_keys pattern false true ∧
        get_usable_keys keyring (some fpr) true false ≠ [] := by
  unfold get_usable_secret_keys
  simp only [List.mem_filterMap, List.mem_filter, List.mem_map]
  constructor
  · rintro ⟨fpr, ⟨⟨p, hpmem, hpfst⟩, hP⟩, hlkp⟩
    refine ⟨fpr, (lookupAssoc_eq_some_of_nodup hnd).mp hlkp, ?_⟩
    simpa [Bool.not_eq_true', List.isEmpty_iff] using hP
  · rintro ⟨fpr, hmem, hne⟩
    refine ⟨fpr, ⟨⟨(fpr, k), hmem, rfl⟩, ?_⟩,
      (lookupAssoc_eq_some_of_nodup hnd).mpr hmem⟩
    simpa [Bool.not_eq_true', List.isEmpty_iff] using hne

/-- Public half of the usable signing key for the C8 witness. -/
def pubA : OpenPGPKey := ⟨"FA", false, false, false, false, ["a@x"], "KA"⟩

/-- Revoked public half: the matching secret key must be excluded. -/
def pubB : OpenPGPKey := ⟨"FB", false, false, false, true, ["b@x"], "KB"⟩

/-- Secret key whose public half `pubA` is usable. -/
def secA : OpenPGPKey := ⟨"FA", false, false, false, false, ["a@x"], "KA"⟩

/-- Secret key whose public half `pubB` is revoked. -/
def secB : OpenPGPKey := ⟨"FB", false, false, false, false, ["b@x"], "KB"⟩

/-- A concrete store with two secret keys, one of whose public
certifications is revoked. -/
def krC8 : Keyring :=
  { get_keys := fun pattern _ sec =>
      if sec then [("FA", secA), ("FB", secB)]
      else
        match pattern with
        | some "FA" => [("FA", pubA)]
        | some "FB" => [("FB", pubB)]
        | _ => [("FA", pubA), ("FB", pubB)]
    export_data := fun _ => "" }

/-- Witness for C8: the secret key with a usable public half is
returned, the one whose public half is revoked is not. -/
theorem get_usable_secret_keys_mem_iff_witness :
    secA ∈ get_usable_secret_keys krC8 none ∧
    secB ∉ get_usable_secret_keys krC8 none := by
  have hnd : ((krC8.get_keys none false true).map Prod.fst).Nodup := by decide
  constructor
  · exact (get_usable_secret_keys_mem_iff krC8 none secA hnd).mpr
      ⟨"FA", by decide, by decide⟩
  · intro hmem
    obtain ⟨fpr, hm, hne⟩ :=
      (get_usable_secret_keys_mem_iff krC8 none secB hnd).mp hmem
    have hm' : (fpr, secB) ∈ [("FA", secA), ("FB", secB)] := hm
    rcases List.mem_cons.mp hm' with h1 | h1
    · have hBA : secB = secA := congrArg Prod.snd h1
      exact absurd hBA (by decide)
    · rcases List.mem_cons.mp h1 with h2 | h2
      · have hfpr : fpr = "FB" := congrArg Prod.fst h2
        subst hfpr
        exact hne (by decide)
      · exact absurd h2 (List.not_mem_nil _)

/-- When the import fails or yields several keys (unparsable or
ambiguous bytes), `fingerprint_for_key` raises `ValueError`. -/
theorem fingerprint_for_key_valueError (B : GpgBackend) (d : String)
    (h : (B.importResult d).ok = false ∨
         1 < (B.importResult d).keys.length) :
    fingerprint_for_key B d = Except.error PyError.valueError := by
  unfold fingerprint_for_key openpgpkey_from_data
  rcases h with h | h
  · simp [h]
  · cases hok : (B.importResult d).ok
    · simp [hok]
    · simp [hok, h]

/-- **C2.** Exactly one verification strategy runs per call to
`verify_downloaded_key`: with a truthy proof the result is the external
MAC check of (fingerprint, data, proof) and does not depend on the gpg
backend at all (no fingerprint is recomputed); without one, the
result is fingerprint equality, and an import failure or ambiguity
(`ValueError`) becomes the result `false` instead of an exception. -/
theorem verify_downloaded_key_strategies (B B' : GpgBackend)
    (downloaded_data fingerprint : String) (mac : Option String)
    (hB : B'.macVerify = B.macVerify) :
    (pyTruthy mac = true →
      verify_downloaded_key B downloaded_data fingerprint mac =
        Except.ok (B.macVerify fingerprint downloaded_data (mac.getD "")) ∧
      verify_downloaded_key B' downloaded_data fingerprint mac =
        verify_downloaded_key B downloaded_data fingerprint mac) ∧
    (pyTruthy mac = false →
      (((B.importResult downloaded_data).ok = false ∨
          1 < (B.importResult downloaded_data).keys.length) →
        verify_downloaded_key B downloaded_data fingerprint mac =
          Except.ok false) ∧
      (∀ f, fingerprint_for_key B downloaded_data = Except.ok f →
        verify_downloaded_key B downloaded_data fingerprint mac =
          Except.ok (f == fingerprint))) := by
  constructor
  · intro hm
    constructor
    · simp [verify_downloaded_key, hm]
    · simp [verify_downloaded_key, hm, hB]
  · intro hm
    constructor
    · intro hfail
      have hv := fingerprint_for_key_valueError B downloaded_data hfail
      simp [verify_downloaded_key, hm, hv]
    · intro f hf
      simp [verify_downloaded_key, hm, hf]

/-- A single-key import backend whose MAC checker always accepts. -/
def keyW : OpenPGPKey :=
  ⟨"FPRW", false, false, false, false, ["w@x"], "KW"⟩

/-- Backend that imports everything as the single key `keyW`. -/
def Bok : GpgBackend :=
  { importResult := fun _ =>
      { ok := true, keys := [("FPRW", keyW)], exportData := fun _ => "EXPW" }
    macVerify := fun _ _ _ => true }

/-- Backend on which every import fails. -/
def Bbad : GpgBackend :=
  { importResult := fun _ =>
      { ok := false, keys := [], exportData := fun _ => "" }
    macVerify := fun _ _ _ => true }

/-- Witness for C2: the MAC path, the caught-failure path and the
fingerprint-equality path on concrete backends. -/
theorem verify_downloaded_key_strategies_witness :
    verify_downloaded_key Bok "DATA" "FPRW" (some "m") = Except.ok true ∧
    verify_downloaded_key Bbad "DATA" "FPRW" none = Except.ok false ∧
    verify_downloaded_key Bok "DATA" "FPRW" none = Except.ok true := by
  refine ⟨?_, ?_, ?_⟩
  · exact ((verify_downloaded_key_strategies Bok Bok "DATA" "FPRW"
      (some "m") rfl).1 (by decide)).1
  · exact ((verify_downloaded_key_strategies Bbad Bbad "DATA" "FPRW"
      none rfl).2 rfl).1 (Or.inl rfl)
  · exact ((verify_downloaded_key_strategies Bok Bok "DATA" "FPRW"
      none rfl).2 rfl).2 "FPRW" rfl

/-- **C10.** An empty-string proof is falsy for `if mac:`, so the call
behaves exactly as if no proof had been supplied, and the MAC strategy
runs only for a non-empty proof. -/
theorem verify_downloaded_key_empty_mac (B : GpgBackend)
    (downloaded_data fingerprint : String) :
    verify_downloaded_key B downloaded_data fingerprint (some "") =
      verify_downloaded_key B downloaded_data fingerprint none ∧
    ∀ m : String, m ≠ "" →
      verify_downloaded_key B downloaded_data fingerprint (some m) =
        Except.ok (B.macVerify fingerprint downloaded_data m) := by
  constructor
  · rfl
  · intro m hm
    have ht : pyTruthy (some m) = true := by simp [pyTruthy, hm]
    simp [verify_downloaded_key, ht]

/-- Witness for C10 on a concrete backend: empty MAC falls back to the
fingerprint strategy, non-empty MAC uses the checker. -/
theorem verify_downloaded_key_empty_mac_witness :
    verify_downloaded_key Bok "D" "FPRW" (some "") =
      verify_downloaded_key Bok "D" "FPRW" none ∧
    verify_downloaded_key Bok "D" "FPRW" (some "x") = Except.ok true := by
  refine ⟨(verify_downloaded_key_empty_mac Bok "D" "FPRW").1, ?_⟩
  exact (verify_downloaded_key_empty_mac Bok "D" "FPRW").2 "x" (by decide)

/-- First of the two keys of the C3 counterexample backend. -/
def key1 : OpenPGPKey := ⟨"K1", false, false, false, false, ["one@x"], "KID3"⟩

/-- Second of the two keys of the C3 counterexample backend. -/
def key2 : OpenPGPKey := ⟨"K2", false, false, false, false, ["two@x"], "KID4"⟩

/-- A backend on which every import succeeds and yields two keys. -/
def Bmulti : GpgBackend :=
  { importResult := fun _ =>
      { ok := true
        keys := [("K1", key1), ("K2", key2)]
        exportData := fun fpr => "minimal:" ++ fpr }
    macVerify := fun _ _ _ => false }

/-- **C3, counterexample.** The claim says more than one imported key
is a fatal input error, but on key data importing two keys
`MinimalExport` returns normally with the export of the first. -/
theorem minimalExport_multikey_counterexample :
    (Bmulti.importResult "DD").keys.length = 2 ∧
    MinimalExport Bmulti "DD" = Except.ok "minimal:K1" :=
  ⟨rfl, rfl⟩

/-- **C3, amended.** `MinimalExport` fails fatally when zero keys were
were imported (`AssertionError` on failure, `IndexError` on an empty
key list), but with one or more imported keys it simply exports the
first key of the sandbox listing — multiple keys are an unchecked
precondition, not a detected error. -/
theorem minimalExport_amended (B : GpgBackend) (d : String) :
    ((B.importResult d).ok = false →
      MinimalExport B d = Except.error PyError.assertionError) ∧
    ((B.importResult d).ok = true → (B.importResult d).keys = [] →
      MinimalExport B d = Except.error PyError.indexError) ∧
    (∀ fpr k rest, (B.importResult d).ok = true →
      (B.importResult d).keys = (fpr, k) :: rest →
      MinimalExport B d = Except.ok ((B.importResult d).exportData fpr)) := by
  refine ⟨?_, ?_, ?_⟩
  · intro h
    simp [MinimalExport, h]
  · intro hok hnil
    simp [MinimalExport, hok, hnil]
  · intro fpr k rest hok hkeys
    simp [MinimalExport, hok, hkeys]

/-- Witness for the amended C3: the two-key backend lands in the
export-the-first-key case. -/
theorem minimalExport_amended_witness :
    MinimalExport Bmulti "DD" =
      Except.ok ((Bmulti.importResult "DD").exportData "K1") :=
  (minimalExport_amended Bmulti "DD").2.2 "K1" key1 [("K2", key2)] rfl rfl

/-- **C5.** Parsing the barcode `"openpgp4fpr:1234ABCD?mac=deadbeef"`
yields the fingerprint `"1234ABCD"`, and the MAC extraction of
`on_button_clicked` hands the proof string `"deadbeef"` on to
verification. -/
theorem parse_barcode_example :
    parse_barcode "openpgp4fpr:1234ABCD?mac=deadbeef" =
      [("mac", BarcodeVal.list ["deadbeef"]),
       ("fingerprint", BarcodeVal.str "1234ABCD")] ∧
    lookupAssoc (parse_barcode "openpgp4fpr:1234ABCD?mac=deadbeef")
        "fingerprint" = some (BarcodeVal.str "1234ABCD") ∧
    barcode_mac (parse_barcode "openpgp4fpr:1234ABCD?mac=deadbeef") =
      some "deadbeef" := by
  refine ⟨?_, ?_, ?_⟩ <;> decide

/-- **C6.** A transport failure while fetching from one peer makes
`try_download_keys` skip exactly that peer: the yielded sequence is the
concatenation of what the peers before and after it yield, and (by the
total return type) no error propagates to the caller. -/
theorem try_download_keys_transport_failure_skipped
    (net : String → Except ConnectionFailure String)
    (pre post : List Client) (c : Client) (e : ConnectionFailure)
    (h : download_key_http net c.address c.port = Except.error e) :
    try_download_keys net (pre ++ c :: post) =
      try_download_keys net pre ++ try_download_keys net post := by
  unfold try_download_keys
  rw [List.filterMap_append]
  congr 1
  simp [List.filterMap_cons, h]

/-- A reachable peer for the C6 witness. -/
def goodClient1 : Client := ⟨"carol", "10.0.0.3", 5000, "CCC"⟩

/-- Another reachable peer for the C6 witness. -/
def goodClient2 : Client := ⟨"dave", "10.0.0.4", 5000, "DDD"⟩

/-- The unreachable peer of the C6 witness. -/
def badClient : Client := ⟨"eve", "10.0.0.9", 1234, "EEE"⟩

/-- A network on which exactly `badClient`'s URL is unreachable. -/
def netW : String → Except ConnectionFailure String := fun url =>
  if url = download_url "10.0.0.9" 1234 then Except.error ⟨"unreachable"⟩
  else Except.ok ("key-from:" ++ url)

/-- Witness for C6: the failing middle peer is skipped and both
neighbours still yield their keys. -/
theorem try_download_keys_transport_failure_skipped_witness :
    try_download_keys netW [goodClient1, badClient, goodClient2] =
      try_download_keys netW [goodClient1] ++
        try_download_keys netW [goodClient2] :=
  try_download_keys_transport_failure_skipped netW [goodClient1]
    [goodClient2] badClient ⟨"unreachable"⟩ (by rfl)

/-- The key the caller asked to have signed (fingerprint `"REQ"`). -/
def kTarget : OpenPGPKey :=
  ⟨"REQ", false, false, false, false, ["holder@example.org"], "KREQ"⟩

/-- The key actually contained in the supplied key data (fingerprint
`"ACT"`). -/
def kActual : OpenPGPKey :=
  ⟨"ACT", false, false, false, false, ["holder@example.org"], "KACT"⟩

/-- Backend under which every import yields the key `"ACT"`: the
recomputed fingerprint of any minimised data is `"ACT"`. -/
def Bc4 : GpgBackend :=
  { importResult := fun _ =>
      { ok := true, keys := [("ACT", kActual)]
        exportData := fun _ => "STRIPPED" }
    macVerify := fun _ _ _ => false }

/-- A keyring with no keys at all (no usable secret keys). -/
def emptyKeyring : Keyring :=
  { get_keys := fun _ _ _ => [], export_data := fun _ => "" }

/-- Signing sandbox whose post-import lookup only answers for the
requested fingerprint `"REQ"`. -/
def sbC4 : SignSandbox :=
  { preStore := emptyKeyring
    importOk := fun _ => true
    postKeys := fun _ pattern =>
      if pattern = "REQ" then [("REQ", kTarget)] else []
    exportUid := fun _ uid => "exported:" ++ uid
    encrypt := fun d r => "enc(" ++ d ++ "," ++ r ++ ")" }

/-- Opaque stand-in for the external `UIDExport` composite. -/
def uidExportW : String → String → String :=
  fun uid d => "uidonly:" ++ uid ++ ":" ++ d

/-- **C4, counterexample.** The claim says the recomputed fingerprint
(`"ACT"` here) is the one used downstream.  In this run the supplied
key data recomputes to `"ACT"` while the caller requested `"REQ"`; the
run does not abort, but both the target-key lookup and the mail
template use `"REQ"`, the requested fingerprint. -/
theorem sign_key_async_requested_fpr_counterexample :
    fingerprint_for_key Bc4 "STRIPPED" = Except.ok "ACT" ∧
    "ACT" ≠ "REQ" ∧
    sign_key_async Bc4 emptyKeyring sbC4 uidExportW (some "REQ")
        "KEYDATA" "" =
      SignResult.ok "REQ"
        [{ uid := "holder@example.org"
           recipient := "holder@example.org"
           encrypted :=
             "enc(uidonly:holder@example.org:exported:holder@example.org,holder@example.org)"
           toAddr := "holder@example.org"
           ctx_fingerprint := "REQ"
           ctx_keyid := "KREQ" }] := by
  refine ⟨rfl, by decide, by decide⟩

/-- **C4, amended.** When key data is present and minimises
successfully, a fingerprint mismatch between the recomputed and the
requested fingerprint does not abort the run, but it is the
*requested* fingerprint — not the recomputed one — that flows
downstream: the run is exactly `sign_with_target` at the requested
fingerprint (whatever fingerprint was recomputed), and in a completed
run both the target-key lookup and every mail-template context carry
the requested fingerprint.  The recomputed fingerprint is used only
when no fingerprint was requested. -/
theorem sign_key_async_requested_fpr_downstream (B : GpgBackend)
    (base : Keyring) (sb : SignSandbox)
    (uidExportFn : String → String → String)
    (f data received_key_data stripped_key fpr : String)
    (hdata : pyOr data received_key_data ≠ "")
    (hmin : MinimalExport B (pyOr data received_key_data) =
            Except.ok stripped_key)
    (hfpr : fingerprint_for_key B stripped_key = Except.ok fpr) :
    sign_key_async B base sb uidExportFn (some f) data received_key_data =
      sign_with_target sb uidExportFn
        (get_usable_secret_keys sb.preStore none) f stripped_key ∧
    ∀ l evs, sign_key_async B base sb uidExportFn (some f) data
        received_key_data = SignResult.ok l evs →
      l = f ∧ ∀ ev ∈ evs, ev.ctx_fingerprint = f := by
  have h1 : sign_key_async B base sb uidExportFn (some f) data
      received_key_data =
      sign_with_target sb uidExportFn
        (get_usable_secret_keys sb.preStore none) f stripped_key := by
    simp [sign_key_async, hmin, hfpr, hdata]
  refine ⟨h1, ?_⟩
  intro l evs h
  rw [h1] at h
  obtain ⟨hl, -, key, -, hevs⟩ := sign_with_target_ok_inv _ _ _ _ _ _ _ h
  subst hl
  subst hevs
  refine ⟨rfl, ?_⟩
  intro ev hev
  rcases List.mem_map.mp hev with ⟨u, hu, rfl⟩
  rfl

/-- Witness for the amended C4: the concrete mismatching run goes
through `sign_with_target` at the requested fingerprint `"REQ"`. -/
theorem sign_key_async_requested_fpr_downstream_witness :
    sign_key_async Bc4 emptyKeyring sbC4 uidExportW (some "REQ")
        "KEYDATA" "" =
      sign_with_target sbC4 uidExportW
        (get_usable_secret_keys sbC4.preStore none) "REQ" "STRIPPED" :=
  (sign_key_async_requested_fpr_downstream Bc4 emptyKeyring sbC4
    uidExportW "REQ" "KEYDATA" "" "STRIPPED" "ACT" (by decide) rfl rfl).1

/-- **C7.** In every completed signing run the per-identity loop emits
one mail event per identity of the looked-up target key, in
store-reported order, and each event's encryption recipient and mail
`to` address are exactly the identity being exported. -/
theorem sign_key_async_per_identity_loop (B : GpgBackend) (base : Keyring)
    (sb : SignSandbox) (uidExportFn : String → String → String)
    (fingerprint : Option String) (data received_key_data l : String)
    (evs : List MailEvent)
    (h : sign_key_async B base sb uidExportFn fingerprint data
          received_key_data = SignResult.ok l evs) :
    (∀ ev ∈ evs, ev.recipient = ev.uid ∧ ev.toAddr = ev.uid) ∧
    ∃ stripped_key key,
      sb.importOk stripped_key = true ∧
      lookupAssoc (sb.postKeys stripped_key l) l = some key ∧
      evs.length = key.uidslist.length ∧
      evs.map MailEvent.uid = key.uidslist := by
  obtain ⟨stripped_key, h2⟩ := sign_key_async_ok_inv _ _ _ _ _ _ _ _ _ h
  obtain ⟨-, himp, key, hkey, hevs⟩ := sign_with_target_ok_inv _ _ _ _ _ _ _ h2
  subst hevs
  refine ⟨?_, stripped_key, key, himp, hkey, by simp, by simp [Function.comp_def]⟩
  intro ev hev
  rcases List.mem_map.mp hev with ⟨u, hu, rfl⟩
  exact ⟨rfl, rfl⟩

/-- Usable public half of the signer key for the C7 witness. -/
def pubSigner : OpenPGPKey :=
  ⟨"SF", false, false, false, false, ["signer@x"], "KS"⟩

/-- Secret half of the signer key for the C7 witness. -/
def secSigner : OpenPGPKey :=
  ⟨"SF", false, false, false, false, ["signer@x"], "KS"⟩

/-- Base store of the C7 witness: one usable secret signing key. -/
def krSigner : Keyring :=
  { get_keys := fun pattern _ sec =>
      if sec then [("SF", secSigner)]
      else if pattern = some "SF" then [("SF", pubSigner)] else []
    export_data := fun _ => "" }

/-- Target key with the spec's two example identities. -/
def kTwoUids : OpenPGPKey :=
  ⟨"TF", false, false, false, false,
   ["alice@example.com", "alice@work.example"], "KT"⟩

/-- Backend importing everything as the two-identity target key. -/
def Bc7 : GpgBackend :=
  { importResult := fun _ =>
      { ok := true, keys := [("TF", kTwoUids)]
        exportData := fun _ => "TSTRIP" }
    macVerify := fun _ _ _ => false }

/-- Signing sandbox of the C7 witness run. -/
def sbC7 : SignSandbox :=
  { preStore := krSigner
    importOk := fun _ => true
    postKeys := fun _ pattern =>
      if pattern = "TF" then [("TF", kTwoUids)] else []
    exportUid := fun _ uid => "exported:" ++ uid
    encrypt := fun d r => "enc(" ++ d ++ "," ++ r ++ ")" }

/-- The mail event of the first example identity. -/
def evC7a : MailEvent :=
  ⟨"alice@example.com", "alice@example.com",
   "enc(uidonly:alice@example.com:exported:alice@example.com,alice@example.com)",
   "alice@example.com", "TF", "KT"⟩

/-- The mail event of the second example identity. -/
def evC7b : MailEvent :=
  ⟨"alice@work.example", "alice@work.example",
   "enc(uidonly:alice@work.example:exported:alice@work.example,alice@work.example)",
   "alice@work.example", "TF", "KT"⟩

/-- Witness for C7: in the concrete two-identity run, exactly two
events are emitted, one per identity, in order. -/
theorem sign_key_async_per_identity_loop_witness :
    [evC7a, evC7b].length = kTwoUids.uidslist.length ∧
    [evC7a, evC7b].map MailEvent.uid = kTwoUids.uidslist := by
  have h : sign_key_async Bc7 emptyKeyring sbC7 uidExportW none "TKD" "" =
      SignResult.ok "TF" [evC7a, evC7b] := by decide
  obtain ⟨-, stripped_key, key, -, hkey, hlen, hmap⟩ :=
    sign_key_async_per_identity_loop Bc7 emptyKeyring sbC7 uidExportW
      none "TKD" "" "TF" [evC7a, evC7b] h
  have hsome : lookupAssoc (sbC7.postKeys stripped_key "TF") "TF" =
      some kTwoUids := rfl
  have hk : key = kTwoUids := Option.some.inj (hsome.symm.trans hkey).symm
  subst hk
  exact ⟨hlen, hmap⟩

end Keysign
